import Mathlib

/-!
Verification of the `map_pr_analyzer` repository: a shallow embedding of
`src/git_tools.py`, `src/templates.py` and `src/server.py` in Lean 4,
together with theorems settling the specification's claims about the
diff-truncation routine, the status classifier, the change summary, the
suggestion heuristics, the validation checks and the error policies.

Python strings are modelled as Lean `String`s, and the Python string
builtins the source uses (`split`, `join`, `strip`, `lower`, substring
containment, `os.path.dirname`, `str.title`, `repr`) are modelled by
executable functions over the underlying character lists, so that every
definition evaluates inside the kernel.  Python integers are `Int` where
the source can go negative (character budgets), `Nat` where it counts.
Exceptions are modelled by `Option`/`Except`: a `none`/`.error` result
stands for a raised exception at that boundary.
-/

/-- Models Python `s.split(sep)` for a single-character separator:
`"".split(c) == ['']`, separators at the ends produce empty fields. -/
def py_split (sep : Char) (s : String) : List String :=
  (go s.data).map String.mk
where
  go : List Char → List (List Char)
    | [] => [[]]
    | c :: cs =>
      match go cs with
      | [] => [[]]
      | l :: ls => if c = sep then [] :: l :: ls else (c :: l) :: ls

/-- Models Python `'\n'.join(lines)`. -/
def py_join_nl : List String → String
  | [] => ""
  | [l] => l
  | l :: l' :: ls => l ++ "\n" ++ py_join_nl (l' :: ls)

/-- Models Python `s.strip()` (whitespace stripped from both ends). -/
def py_strip (s : String) : String :=
  String.mk (((s.data.dropWhile Char.isWhitespace).reverse.dropWhile
    Char.isWhitespace).reverse)

/-- Models Python `s.lower()` (ASCII case folding suffices for the
markers and keywords the source compares against). -/
def py_lower (s : String) : String :=
  String.mk (s.data.map Char.toLower)

/-- Character-list prefix test (executable form of `List.IsPrefix`). -/
def pre_list : List Char → List Char → Bool
  | [], _ => true
  | _ :: _, [] => false
  | a :: as, b :: bs => a == b && pre_list as bs

/-- Substring scan: does `n` occur as a contiguous block inside the
second list? -/
def sub_list : List Char → List Char → Bool
  | n, [] => n.isEmpty
  | n, c :: rest => pre_list n (c :: rest) || sub_list n rest

/-- Models Python `needle in hay` on strings. -/
def py_in (needle hay : String) : Bool :=
  sub_list needle.data hay.data

/-- Models Python `os.path.dirname` (POSIX): everything up to the last
slash, with trailing slashes stripped unless the head is all slashes. -/
def py_dirname (p : String) : String :=
  let head := (p.data.reverse.dropWhile (fun c => c ≠ '/')).reverse
  if head.any (fun c => c ≠ '/') then
    String.mk ((head.reverse.dropWhile (fun c => c = '/')).reverse)
  else
    String.mk head

/-- Models Python `s.title()` for ASCII text: each maximal alphabetic run
gets an upper-case first letter and lower-case rest. -/
def py_title (s : String) : String :=
  String.mk (go false s.data)
where
  go : Bool → List Char → List Char
    | _, [] => []
    | prevAlpha, c :: cs =>
      if c.isAlpha then
        (if prevAlpha then c.toLower else c.toUpper) :: go true cs
      else
        c :: go false cs

/-- The state of one finished subprocess: exit code, captured stdout and
stderr (`subprocess.run(..., capture_output=True, text=True)`). -/
structure ProcResult where
  exitCode : Nat
  stdout : String
  stderr : String

/-- `GitAnalyzer._run_git_command`: returns the stripped stdout on exit
code 0 and raises `Exception("Git command failed: " + stderr)` otherwise
(`subprocess.run(..., check=True)` raises `CalledProcessError` on a
non-zero exit, which the source converts to this message). -/
def run_git_command (r : ProcResult) : Except String String :=
  if r.exitCode = 0 then .ok (py_strip r.stdout)
  else .error ("Git command failed: " ++ r.stderr)

/-- The outcomes of the three git invocations `get_file_changes` makes,
in the order the source makes them: `diff --name-status`, `diff --stat`,
and the full `diff`. -/
structure GitOutputs where
  nameStatus : ProcResult
  stat : ProcResult
  fullDiff : ProcResult

/-- One parsed entry of the name-status listing
(`src/git_tools.py`, lines 56-60). -/
structure FileChange where
  status : String
  filename : String
  change_type : String
deriving DecidableEq

/-- The fixed status table of `GitAnalyzer._get_change_type`. -/
def status_map : List (Char × String) :=
  [('A', "added"), ('M', "modified"), ('D', "deleted"),
   ('R', "renamed"), ('C', "copied"), ('T', "type_changed")]

/-- `GitAnalyzer._get_change_type`: looks up `status[0]` in the table,
defaulting to `"unknown"`.  `none` models the `IndexError` Python raises
on `status[0]` when the token is empty. -/
def get_change_type (status : String) : Option String :=
  match status.data with
  | [] => none
  | c :: _ => some ((status_map.lookup c).getD "unknown")

/-- The elision marker `_truncate_diff` appends when it stops early
(`src/git_tools.py`, line 112). -/
def elision_marker (n : Nat) : String :=
  "\n... [DIFF TRUNCATED - " ++ toString n ++ " more lines] ..."

/-- The accumulation loop of `GitAnalyzer._truncate_diff` (lines
105-115): emit lines while they fit, and on the first line that would
overflow append the elision marker (counting the lines not emitted) and
stop.  `acc` holds the emitted lines in reverse, `size` the running
character total (each line counts its length plus one for a newline). -/
def truncate_lines (max_chars : Int) (total : Nat) :
    List String → List String → Int → List String
  | [], acc, _ => acc.reverse
  | l :: rest, acc, size =>
    if size + ((l.length : Int) + 1) > max_chars then
      acc.reverse ++ [elision_marker (total - acc.length)]
    else
      truncate_lines max_chars total rest (l :: acc) (size + ((l.length : Int) + 1))

/-- `GitAnalyzer._truncate_diff`: a diff that fits the budget is returned
unchanged; otherwise the line-accumulation loop runs and the pieces are
joined with newlines. -/
def truncate_diff (diff : String) (max_chars : Int) : String :=
  if (diff.length : Int) ≤ max_chars then diff
  else
    let lines := py_split '\n' diff
    py_join_nl (truncate_lines max_chars lines.length lines [] 0)

/-- The parsing loop of `get_file_changes` (lines 49-60): skip blank
lines, split each remaining line on tabs, keep lines with at least two
fields.  A `.error` result models the `IndexError` that
`_get_change_type` raises on an empty status token ("string index out of
range" is CPython's message for it), which the enclosing `try` of
`get_file_changes` catches. -/
def parse_changed_files : List String → Except String (List FileChange)
  | [] => .ok []
  | line :: rest =>
    if py_strip line = "" then parse_changed_files rest
    else
      let parts := py_split '\t' line
      if parts.length ≥ 2 then
        match get_change_type (parts.getD 0 "") with
        | none => .error "string index out of range"
        | some ct =>
          match parse_changed_files rest with
          | .error e => .error e
          | .ok others =>
            .ok ({ status := parts.getD 0 "", filename := parts.getD 1 "",
                   change_type := ct } :: others)
      else parse_changed_files rest

/-- The summary dictionary built by `GitAnalyzer._summarize_changes`.
The `directories` set is modelled as a duplicate-free list in insertion
order (the source converts the set to a list before returning it; only
membership matters to the properties proved here). -/
structure ChangeSummary where
  added : Nat
  modified : Nat
  deleted : Nat
  renamed : Nat
  file_types : List (String × Nat)
  directories : List String
deriving DecidableEq

/-- Models `summary["file_types"][ext] = summary["file_types"].get(ext, 0) + 1`
on an insertion-ordered association list. -/
def bump_ext : List (String × Nat) → String → List (String × Nat)
  | [], e => [(e, 1)]
  | (k, v) :: rest, e =>
    if k = e then (k, v + 1) :: rest else (k, v) :: bump_ext rest e

/-- Models `summary["directories"].add(directory)`. -/
def set_add (l : List String) (d : String) : List String :=
  if d ∈ l then l else l ++ [d]

/-- Models Python `filename.split('.')[-1]`. -/
def last_dot_field (filename : String) : String :=
  ((py_split '.' filename).getLast?).getD ""

/-- The updates one iteration of the loop in `_summarize_changes`
(lines 130-146) applies: bump the counter matching the change type (the
`change_type in summary` test hits only the four counter keys for the
types the classifier produces), record the extension when the filename
holds a dot, and record the parent directory when it is non-empty. -/
def summarize_step_core (s : ChangeSummary) (c : FileChange) : ChangeSummary :=
  let s1 :=
    if c.change_type = "added" then { s with added := s.added + 1 }
    else if c.change_type = "modified" then { s with modified := s.modified + 1 }
    else if c.change_type = "deleted" then { s with deleted := s.deleted + 1 }
    else if c.change_type = "renamed" then { s with renamed := s.renamed + 1 }
    else s
  let s2 :=
    if c.filename.data.contains '.' then
      { s1 with file_types := bump_ext s1.file_types (last_dot_field c.filename) }
    else s1
  let d := py_dirname c.filename
  if d ≠ "" then { s2 with directories := set_add s2.directories d } else s2

/-- One iteration of the loop in `_summarize_changes`.  `none` models
the `TypeError` the source would raise if a change type named one of the
two non-counter keys (`summary["file_types"] += 1` adds an integer to a
dict); every change type the parser produces avoids it. -/
def summarize_step (s : ChangeSummary) (c : FileChange) : Option ChangeSummary :=
  if c.change_type = "file_types" ∨ c.change_type = "directories" then none
  else some (summarize_step_core s c)

/-- The loop of `_summarize_changes` over the whole sequence. -/
def summarize_aux : ChangeSummary → List FileChange → Option ChangeSummary
  | s, [] => some s
  | s, c :: rest =>
    match summarize_step s c with
    | none => none
    | some s' => summarize_aux s' rest

/-- `GitAnalyzer._summarize_changes`: fold the per-change step over the
zero-initialised summary (lines 121-128). -/
def summarize_changes (file_changes : List FileChange) : Option ChangeSummary :=
  summarize_aux ⟨0, 0, 0, 0, [], []⟩ file_changes

/-- The dictionary `get_file_changes` returns.  The success and error
shapes share the fields listed at lines 65-74 and 77-85; `error`,
`original_diff_size` and `change_summary` are optional because each is
present in only one of the two shapes. -/
structure ChangeReport where
  error : Option String
  branch_comparison : String
  total_files_changed : Nat
  file_changes : List FileChange
  diff_stats : String
  diff_content : String
  truncated : Bool
  original_diff_size : Option Nat
  change_summary : Option ChangeSummary
deriving DecidableEq

/-- The error dictionary of `get_file_changes` (lines 77-85). -/
def error_report (target_branch e : String) : ChangeReport :=
  { error := some e
    branch_comparison := target_branch ++ "...HEAD"
    total_files_changed := 0
    file_changes := []
    diff_stats := ""
    diff_content := ""
    truncated := false
    original_diff_size := none
    change_summary := none }

/-- `GitAnalyzer.get_file_changes`: run the three git queries in source
order, parse the name-status listing, truncate the diff against
`max_tokens - 2000`, and summarise; any raised exception along the way
(a failed git invocation, the parser's `IndexError`, the summariser's
`TypeError`) is caught and converted to the error dictionary. -/
def get_file_changes (git : GitOutputs) (target_branch : String)
    (max_tokens : Int) : ChangeReport :=
  match run_git_command git.nameStatus with
  | .error e => error_report target_branch e
  | .ok ns =>
  match run_git_command git.stat with
  | .error e => error_report target_branch e
  | .ok stats =>
  match run_git_command git.fullDiff with
  | .error e => error_report target_branch e
  | .ok full_diff =>
  match parse_changed_files (py_split '\n' ns) with
  | .error e => error_report target_branch e
  | .ok file_changes =>
  match summarize_changes file_changes with
  | none => error_report target_branch
      "unsupported operand type(s) for +=: 'dict' and 'int'"
  | some summary =>
    let truncated_diff := truncate_diff full_diff (max_tokens - 2000)
    { error := none
      branch_comparison := target_branch ++ "...HEAD"
      total_files_changed := file_changes.length
      file_changes := file_changes
      diff_stats := stats
      diff_content := truncated_diff
      truncated := decide (full_diff.length > truncated_diff.length)
      original_diff_size := some full_diff.length
      change_summary := some summary }

/-- One element of the list `get_commit_messages` returns: either a
parsed commit dictionary or the single error-marker dictionary of its
`except` branch. -/
inductive CommitEntry where
  | commit (hash message author date : String)
  | errorMarker (error : String)
deriving DecidableEq

/-- One iteration of the parsing loop of `get_commit_messages`
(lines 164-173): a blank line contributes nothing, a line with fewer
than four pipe-separated fields contributes nothing, any other line
contributes a commit dictionary built from its first four fields. -/
def parse_commit_line (line : String) : Option CommitEntry :=
  if py_strip line = "" then none
  else
    let parts := py_split '|' line
    if parts.length ≥ 4 then
      some (.commit (parts.getD 0 "") (parts.getD 1 "") (parts.getD 2 "")
        (parts.getD 3 ""))
    else none

/-- `GitAnalyzer.get_commit_messages`: on a failed git invocation,
return the one-element error-marker list; otherwise run the parsing
loop over the lines of the log output, appending the parsed commits in
order. -/
def get_commit_messages (logProc : ProcResult) : List CommitEntry :=
  match run_git_command logProc with
  | .error e => [.errorMarker e]
  | .ok out => (py_split '\n' out).filterMap parse_commit_line

/-- The static metadata attached to a template (`src/templates.py`,
lines 18-59). -/
structure TemplateMeta where
  name : String
  description : String
  suitable_for : List String
deriving DecidableEq

/-- The built-in metadata table of `TemplateManager.get_all_templates`. -/
def template_metadata : List (String × TemplateMeta) :=
  [("feature",
    { name := "Feature"
      description := "For new features and enhancements"
      suitable_for := ["New functionality", "Feature enhancements",
        "New API endpoints", "UI/UX improvements"] }),
   ("bugfix",
    { name := "Bug Fix"
      description := "For fixing bugs and issues"
      suitable_for := ["Bug fixes", "Error handling improvements",
        "Performance fixes", "Security fixes"] }),
   ("hotfix",
    { name := "Hotfix"
      description := "For critical production issues"
      suitable_for := ["Critical production bugs", "Security vulnerabilities",
        "Service outages", "Data corruption fixes"] }),
   ("docs",
    { name := "Documentation"
      description := "For documentation changes"
      suitable_for := ["README updates", "API documentation",
        "Code comments", "Architecture docs"] })]

/-- The generated fallback metadata for a stem outside the table
(lines 72-76). -/
def template_default_meta (template_name : String) : TemplateMeta :=
  { name := py_title template_name
    description := "Template for " ++ template_name
    suitable_for := [] }

/-- One value of the dictionary `get_all_templates` returns: the loaded
entry (lines 69-77) or the per-file failure entry (lines 79-82). -/
structure TemplateEntry where
  content : Option String
  error : Option String
  file_path : String
  metadata : Option TemplateMeta
deriving DecidableEq

/-- `TemplateManager.get_all_templates` over a modelled directory
listing: `files` pairs each `*.md` stem found by the glob with the
outcome of reading it (`.error` models a raised read failure, converted
to an error entry rather than aborting the listing). -/
def get_all_templates (templates_dir : String)
    (files : List (String × Except String String)) :
    List (String × TemplateEntry) :=
  files.map fun p =>
    (p.1,
     match p.2 with
     | .ok content =>
       { content := some content
         error := none
         file_path := templates_dir ++ "/" ++ p.1 ++ ".md"
         metadata := some ((template_metadata.lookup p.1).getD
           (template_default_meta p.1)) }
     | .error e =>
       { content := none
         error := some ("Could not load template: " ++ e)
         file_path := templates_dir ++ "/" ++ p.1 ++ ".md"
         metadata := none })

/-- `TemplateManager.get_template`: single-key lookup on a fresh
listing. -/
def get_template (templates_dir : String)
    (files : List (String × Except String String)) (template_name : String) :
    Option TemplateEntry :=
  (get_all_templates templates_dir files).lookup template_name

/-- `TemplateManager.list_available_templates`: the keys of a fresh
listing. -/
def list_available_templates (templates_dir : String)
    (files : List (String × Except String String)) : List String :=
  (get_all_templates templates_dir files).map Prod.fst

/-- Escapes one character list the way CPython's `repr` escapes string
content for the chosen quote character (backslash, the quote, and the
common control characters; the source's own strings stay within this
range). -/
def py_escape_chars (q : Char) : List Char → List Char
  | [] => []
  | c :: cs =>
    (if c = '\\' then ['\\', '\\']
     else if c = q then ['\\', q]
     else if c = '\n' then ['\\', 'n']
     else if c = '\r' then ['\\', 'r']
     else if c = '\t' then ['\\', 't']
     else [c]) ++ py_escape_chars q cs

/-- Models CPython `repr` of a string: single quotes unless the text
contains a single quote and no double quote. -/
def py_repr_str (s : String) : String :=
  let q : Char :=
    if s.data.contains '\'' && !(s.data.contains '"') then '"' else '\''
  String.mk (q :: (py_escape_chars q s.data ++ [q]))

/-- Models Python `str` of a bool. -/
def py_str_bool (b : Bool) : String := if b then "True" else "False"

/-- Models Python `str` of a list of strings. -/
def py_str_str_list (ls : List String) : String :=
  "[" ++ String.intercalate ", " (ls.map py_repr_str) ++ "]"

/-- Models Python `str` of a string-to-int dictionary in insertion
order. -/
def py_str_nat_dict (m : List (String × Nat)) : String :=
  "\x7b" ++
    String.intercalate ", "
      (m.map fun p => py_repr_str p.1 ++ ": " ++ toString p.2) ++
  "\x7d"

/-- Models Python `str` of one file-change dictionary (keys in the
insertion order of lines 56-60). -/
def py_str_file_change (c : FileChange) : String :=
  "\x7b'status': " ++ py_repr_str c.status ++
  ", 'filename': " ++ py_repr_str c.filename ++
  ", 'change_type': " ++ py_repr_str c.change_type ++ "\x7d"

/-- Models Python `str` of the summary dictionary (keys in the insertion
order of lines 121-128; `directories` is a list by the time the report is
rendered, line 149). -/
def py_str_summary (s : ChangeSummary) : String :=
  "\x7b'added': " ++ toString s.added ++
  ", 'modified': " ++ toString s.modified ++
  ", 'deleted': " ++ toString s.deleted ++
  ", 'renamed': " ++ toString s.renamed ++
  ", 'file_types': " ++ py_str_nat_dict s.file_types ++
  ", 'directories': " ++ py_str_str_list s.directories ++ "\x7d"

/-- Models Python `str(change_analysis)` for the two report shapes
`get_file_changes` produces, with keys in their insertion order.  Set
iteration order aside (the summary's directory set is rendered in
insertion order here), this is the text the suggestion heuristics search
for keywords. -/
def py_str_report (r : ChangeReport) : String :=
  match r.error with
  | some e =>
    "\x7b'error': " ++ py_repr_str e ++
    ", 'branch_comparison': " ++ py_repr_str r.branch_comparison ++
    ", 'total_files_changed': " ++ toString r.total_files_changed ++
    ", 'file_changes': " ++
      ("[" ++ String.intercalate ", " (r.file_changes.map py_str_file_change) ++ "]") ++
    ", 'diff_stats': " ++ py_repr_str r.diff_stats ++
    ", 'diff_content': " ++ py_repr_str r.diff_content ++
    ", 'truncated': " ++ py_str_bool r.truncated ++ "\x7d"
  | none =>
    "\x7b'branch_comparison': " ++ py_repr_str r.branch_comparison ++
    ", 'total_files_changed': " ++ toString r.total_files_changed ++
    ", 'file_changes': " ++
      ("[" ++ String.intercalate ", " (r.file_changes.map py_str_file_change) ++ "]") ++
    ", 'diff_stats': " ++ py_repr_str r.diff_stats ++
    ", 'diff_content': " ++ py_repr_str r.diff_content ++
    ", 'truncated': " ++ py_str_bool r.truncated ++
    ", 'original_diff_size': " ++ toString (r.original_diff_size.getD 0) ++
    ", 'change_summary': " ++ py_str_summary (r.change_summary.getD ⟨0, 0, 0, 0, [], []⟩) ++
    "\x7d"

/-- The documentation markers of `get_template_suggestions` (line 115). -/
def doc_markers : List String := [".md", ".txt", ".rst", "readme", "docs/"]

/-- The test markers (line 117). -/
def test_markers : List String := ["test_", "_test", "spec_", "_spec", "tests/"]

/-- The configuration markers (line 119). -/
def config_markers : List String := [".json", ".yaml", ".yml", ".toml", ".ini", "config"]

/-- The classification loop of `get_template_suggestions`
(lines 107-122): each change falls into the first matching bucket of
(documentation, test, configuration, code), judged on the lower-cased
filename.  Returns the four counts in that order. -/
def count_buckets : List FileChange → Nat × Nat × Nat × Nat
  | [] => (0, 0, 0, 0)
  | c :: rest =>
    let counts := count_buckets rest
    let fn := py_lower c.filename
    if doc_markers.any (fun m => py_in m fn) then
      (counts.1 + 1, counts.2.1, counts.2.2.1, counts.2.2.2)
    else if test_markers.any (fun m => py_in m fn) then
      (counts.1, counts.2.1 + 1, counts.2.2.1, counts.2.2.2)
    else if config_markers.any (fun m => py_in m fn) then
      (counts.1, counts.2.1, counts.2.2.1 + 1, counts.2.2.2)
    else
      (counts.1, counts.2.1, counts.2.2.1, counts.2.2.2 + 1)

/-- The bug-fix keywords of line 132. -/
def fix_keywords : List String := ["fix", "bug", "error", "issue"]

/-- The hotfix keywords of line 135. -/
def hotfix_keywords : List String := ["critical", "urgent", "hotfix", "production"]

/-- The suggestion dictionary `get_template_suggestions` returns
(`analysis_data` carries the input report through unchanged, line 99). -/
structure Suggestions where
  primary_suggestions : List String
  secondary_suggestions : List String
  analysis_data : ChangeReport
  confidence : String
  reasoning : String
deriving DecidableEq

/-- `TemplateManager.get_template_suggestions`: count the buckets, then
apply the ordered rules of lines 127-140 — zero files, documentation
majority, bug-fix keywords in the stringified report, hotfix keywords,
default — first match winning. -/
def get_template_suggestions (change_analysis : ChangeReport) : Suggestions :=
  let file_changes := change_analysis.file_changes
  let counts := count_buckets file_changes
  let doc_files := counts.1
  let code_files := counts.2.2.2
  let total_files := file_changes.length
  let rendered := py_lower (py_str_report change_analysis)
  let base : Suggestions :=
    { primary_suggestions := []
      secondary_suggestions := []
      analysis_data := change_analysis
      confidence := "low"
      reasoning := "Basic heuristic analysis - Claude will provide better suggestions" }
  if total_files = 0 then
    { base with primary_suggestions := ["feature"] }
  else if doc_files > code_files then
    { base with primary_suggestions := ["docs"], secondary_suggestions := ["feature"] }
  else if fix_keywords.any (fun w => py_in w rendered) then
    { base with primary_suggestions := ["bugfix"], secondary_suggestions := ["feature"] }
  else if hotfix_keywords.any (fun w => py_in w rendered) then
    { base with primary_suggestions := ["hotfix"], secondary_suggestions := ["bugfix"] }
  else
    { base with primary_suggestions := ["feature"], secondary_suggestions := ["docs", "bugfix"] }

/-- The `basic_checks` dictionary of `validate_pr_description`
(`src/server.py`, lines 225-229). -/
structure BasicChecks where
  has_description : Bool
  reasonable_length : Bool
  contains_checklist : Bool
deriving DecidableEq

/-- The two dictionary shapes `validate_pr_description` returns: the
not-found failure payload of lines 212-217 (which carries
`valid = False`), and the validation payload of lines 220-235. -/
inductive ValidationResult where
  | notFound (error : String) (available_templates : List String)
  | ok (template_used : String) (description_length : Nat)
      (template_content : String) (change_analysis : Option ChangeReport)
      (basic_checks : BasicChecks)
deriving DecidableEq

/-- `validate_pr_description`: look the template up via a fresh listing;
an absent name yields the failure payload naming the template and
listing the valid names, a present one yields the basic checks
(`len(description.strip()) > 0`, `10 < len(description) < 5000`,
checklist-marker containment). -/
def validate_pr_description (templates_dir : String)
    (files : List (String × Except String String))
    (description template_name : String)
    (change_analysis : Option ChangeReport) : ValidationResult :=
  match get_template templates_dir files template_name with
  | none =>
    .notFound ("Template '" ++ template_name ++ "' not found")
      (list_available_templates templates_dir files)
  | some t =>
    .ok template_name description.length (t.content.getD "") change_analysis
      { has_description := decide (0 < (py_strip description).length)
        reasonable_length := decide (10 < description.length) && decide (description.length < 5000)
        contains_checklist := py_in "- [ ]" description || py_in "- [x]" description }

/-- The reconfiguration step of `analyze_file_changes` (`src/server.py`,
lines 42-44): the process-global analyzer is replaced by one rooted at
`repo_path` exactly when `repo_path` differs from `"."`; otherwise the
current analyzer (and so its configured path) is kept.  The state is the
analyzer's configured repository path. -/
def update_repo_path (current repo_path : String) : String :=
  if repo_path ≠ "." then repo_path else current

/-- Executable prefix test agrees with `List.IsPrefix`. -/
theorem pre_list_iff (n l : List Char) : pre_list n l = true ↔ n <+: l := by
  induction n generalizing l with
  | nil => simp [pre_list]
  | cons a as ih =>
    cases l with
    | nil => simp [pre_list]
    | cons b bs => simp [pre_list, List.cons_prefix_cons, ih, And.comm]

/-- Executable substring test agrees with `List.IsInfix`. -/
theorem sub_list_iff (n l : List Char) : sub_list n l = true ↔ n <:+: l := by
  induction l with
  | nil => simp [sub_list, List.isEmpty_iff]
  | cons c cs ih => simp [sub_list, pre_list_iff, ih, List.infix_cons_iff]

/-- The Python `in` model agrees with character-list infixes. -/
theorem py_in_iff (n h : String) : py_in n h = true ↔ n.data <:+: h.data :=
  sub_list_iff n.data h.data

/-- A string is empty exactly when its character list is. -/
theorem string_eq_empty_iff (s : String) : s = "" ↔ s.data = [] := by
  cases s
  simp [String.ext_iff]

/-- A key outside the key column of an association list has no lookup. -/
theorem lookup_eq_none_of_not_mem_keys {α β : Type*} [BEq α] [LawfulBEq α]
    (k : α) (l : List (α × β)) (h : k ∉ l.map Prod.fst) : l.lookup k = none := by
  induction l with
  | nil => rfl
  | cons p rest ih =>
    simp only [List.map_cons, List.mem_cons] at h
    push_neg at h
    have hf : (k == p.1) = false := beq_eq_false_iff_ne.mpr h.1
    simp [List.lookup, hf, ih h.2]

/-- The listing keeps exactly the stems of the directory scan as keys. -/
theorem get_all_templates_keys (templates_dir : String)
    (files : List (String × Except String String)) :
    (get_all_templates templates_dir files).map Prod.fst = files.map Prod.fst := by
  simp [get_all_templates, List.map_map, Function.comp]

/-- The message `_run_git_command` raises on a failed invocation is never
empty. -/
theorem git_failed_ne_empty (x : String) : ("Git command failed: " ++ x) ≠ "" := by
  intro hcontra
  have hlen : ("Git command failed: " ++ x).length = 0 := by rw [hcontra]; rfl
  rw [String.length_append] at hlen
  have h20 : ("Git command failed: " : String).length = 20 := rfl
  omega

/-- C10: the process-global repository configuration is replaced only by
a call whose `repo_path` differs from `"."`: a call with the default
`"."` leaves the configured path unchanged, and after a call configuring
`P ≠ "."` a subsequent `"."` call still analyzes `P` rather than
reverting to the startup directory. -/
theorem update_repo_path_frame (s P : String) (h : P ≠ ".") :
    update_repo_path s "." = s ∧
    update_repo_path s P = P ∧
    update_repo_path (update_repo_path s P) "." = P := by
  simp [update_repo_path, h]

/-- Witness for `update_repo_path_frame` at a concrete path. -/
theorem update_repo_path_frame_witness :
    update_repo_path "/srv/start" "." = "/srv/start" ∧
    update_repo_path "/srv/start" "/tmp/other" = "/tmp/other" ∧
    update_repo_path (update_repo_path "/srv/start" "/tmp/other") "." = "/tmp/other" :=
  update_repo_path_frame "/srv/start" "/tmp/other" (by decide)

/-- C2: for every non-empty raw status token of the name-status listing
(single-letter, multi-character such as `R100`, or unrecognized), the
classification returns (never raises) one of the seven enumerated kinds,
with `A`/`M`/`D`/`R`/`C`/`T` mapped by the token's first character to
`added`/`modified`/`deleted`/`renamed`/`copied`/`type_changed` and every
other first character to `unknown`. -/
theorem get_change_type_total (s : String) (h : s ≠ "") :
    ∃ r, get_change_type s = some r ∧
      r ∈ ["added", "modified", "deleted", "renamed", "copied",
           "type_changed", "unknown"] ∧
      ∀ c, s.data.head? = some c →
        ((c = 'A' → r = "added") ∧ (c = 'M' → r = "modified") ∧
         (c = 'D' → r = "deleted") ∧ (c = 'R' → r = "renamed") ∧
         (c = 'C' → r = "copied") ∧ (c = 'T' → r = "type_changed") ∧
         (c ∉ (['A', 'M', 'D', 'R', 'C', 'T'] : List Char) → r = "unknown")) := by
  have hd : s.data ≠ [] := fun hnil => h ((string_eq_empty_iff s).mpr hnil)
  rcases he : s.data with _ | ⟨c, cs⟩
  · exact absurd he hd
  refine ⟨(status_map.lookup c).getD "unknown", by simp [get_change_type, he], ?_, ?_⟩
  · by_cases h1 : c = 'A'; · subst h1; decide
    by_cases h2 : c = 'M'; · subst h2; decide
    by_cases h3 : c = 'D'; · subst h3; decide
    by_cases h4 : c = 'R'; · subst h4; decide
    by_cases h5 : c = 'C'; · subst h5; decide
    by_cases h6 : c = 'T'; · subst h6; decide
    have hn : status_map.lookup c = none := by
      apply lookup_eq_none_of_not_mem_keys
      simp [status_map, h1, h2, h3, h4, h5, h6]
    simp [hn]
  · intro c' hc'
    simp only [List.head?_cons, Option.some.injEq] at hc'
    subst hc'
    by_cases h1 : c = 'A'; · subst h1; decide
    by_cases h2 : c = 'M'; · subst h2; decide
    by_cases h3 : c = 'D'; · subst h3; decide
    by_cases h4 : c = 'R'; · subst h4; decide
    by_cases h5 : c = 'C'; · subst h5; decide
    by_cases h6 : c = 'T'; · subst h6; decide
    have hn : status_map.lookup c = none := by
      apply lookup_eq_none_of_not_mem_keys
      simp [status_map, h1, h2, h3, h4, h5, h6]
    simp [hn, h1, h2, h3, h4, h5, h6]

/-- Witness for `get_change_type_total` at the rename-similarity token
`R100`. -/
theorem get_change_type_total_witness :
    ∃ r, get_change_type "R100" = some r ∧
      r ∈ ["added", "modified", "deleted", "renamed", "copied",
           "type_changed", "unknown"] ∧
      ∀ c, ("R100" : String).data.head? = some c →
        ((c = 'A' → r = "added") ∧ (c = 'M' → r = "modified") ∧
         (c = 'D' → r = "deleted") ∧ (c = 'R' → r = "renamed") ∧
         (c = 'C' → r = "copied") ∧ (c = 'T' → r = "type_changed") ∧
         (c ∉ (['A', 'M', 'D', 'R', 'C', 'T'] : List Char) → r = "unknown")) :=
  get_change_type_total "R100" (by decide)

/-- C8: for every template name not present in the template directory,
`get_template` returns an absent result, and `validate_pr_description`
with that name returns (without raising) the failure payload with an
error message naming the missing template and the list of all currently
available template names. -/
theorem validate_template_not_found (templates_dir : String)
    (files : List (String × Except String String))
    (template_name description : String) (ca : Option ChangeReport)
    (h : template_name ∉ files.map Prod.fst) :
    get_template templates_dir files template_name = none ∧
    validate_pr_description templates_dir files description template_name ca =
      .notFound ("Template '" ++ template_name ++ "' not found")
        (files.map Prod.fst) := by
  have hkeys := get_all_templates_keys templates_dir files
  have hnone : get_template templates_dir files template_name = none := by
    unfold get_template
    apply lookup_eq_none_of_not_mem_keys
    rw [hkeys]
    exact h
  refine ⟨hnone, ?_⟩
  simp [validate_pr_description, hnone, list_available_templates, hkeys]

/-- Witness for `validate_template_not_found`: a one-template store and
the name `nonexistent`. -/
theorem validate_template_not_found_witness :
    get_template "templates" ([("feature", Except.ok "Feature body")] : List (String × Except String String)) "nonexistent" = none ∧
    validate_pr_description "templates" ([("feature", Except.ok "Feature body")] : List (String × Except String String))
        "A description" "nonexistent" none =
      .notFound ("Template '" ++ "nonexistent" ++ "' not found")
        (List.map Prod.fst ([("feature", Except.ok "Feature body")] : List (String × Except String String))) :=
  validate_template_not_found "templates" ([("feature", Except.ok "Feature body")] : List (String × Except String String))
    "nonexistent" "A description" none (by decide)

/-- C7: for every description and every template name that resolves to
an existing template, `validate_pr_description` reports
`has_description` true iff the stripped description is non-empty,
`reasonable_length` true iff the description length lies within
`[11, 4999]`, and `contains_checklist` true iff the description contains
`- [ ]` or `- [x]`; for the empty description both `has_description` and
`reasonable_length` are false. -/
theorem validate_basic_checks (templates_dir : String)
    (files : List (String × Except String String))
    (template_name description : String) (ca : Option ChangeReport)
    (t : TemplateEntry)
    (ht : get_template templates_dir files template_name = some t) :
    ∃ bc, validate_pr_description templates_dir files description template_name ca =
        .ok template_name description.length (t.content.getD "") ca bc ∧
      (bc.has_description = true ↔ py_strip description ≠ "") ∧
      (bc.reasonable_length = true ↔
        11 ≤ description.length ∧ description.length ≤ 4999) ∧
      (bc.contains_checklist = true ↔
        (("- [ ]" : String).data <:+: description.data ∨
         ("- [x]" : String).data <:+: description.data)) ∧
      (description = "" → bc.has_description = false ∧ bc.reasonable_length = false) := by
  refine ⟨{ has_description := decide (0 < (py_strip description).length)
            reasonable_length := decide (10 < description.length) &&
              decide (description.length < 5000)
            contains_checklist := py_in "- [ ]" description ||
              py_in "- [x]" description }, ?_, ?_, ?_, ?_, ?_⟩
  · simp [validate_pr_description, ht]
  · simp only [decide_eq_true_eq]
    rw [show (py_strip description).length = (py_strip description).data.length from rfl,
      List.length_pos]
    exact (not_congr (string_eq_empty_iff _)).symm
  · simp only [Bool.and_eq_true, decide_eq_true_eq]
    omega
  · simp [py_in_iff]
  · intro hdesc
    subst hdesc
    exact ⟨by decide, by decide⟩

/-- Witness for `validate_basic_checks`: the empty description against a
store holding a `feature` template. -/
theorem validate_basic_checks_witness :
    ∃ bc, validate_pr_description "templates" ([("feature", Except.ok "Feature body")] : List (String × Except String String))
        "" "feature" none =
        .ok "feature" ("" : String).length
          ((Option.some "Feature body").getD "") none bc ∧
      (bc.has_description = true ↔ py_strip "" ≠ "") ∧
      (bc.reasonable_length = true ↔
        11 ≤ ("" : String).length ∧ ("" : String).length ≤ 4999) ∧
      (bc.contains_checklist = true ↔
        (("- [ ]" : String).data <:+: ("" : String).data ∨
         ("- [x]" : String).data <:+: ("" : String).data)) ∧
      (("" : String) = "" → bc.has_description = false ∧ bc.reasonable_length = false) :=
  validate_basic_checks "templates" ([("feature", Except.ok "Feature body")] : List (String × Except String String))
    "feature" "" none
    { content := some "Feature body"
      error := none
      file_path := "templates/feature.md"
      metadata := some { name := "Feature"
                         description := "For new features and enhancements"
                         suitable_for := ["New functionality", "Feature enhancements",
                           "New API endpoints", "UI/UX improvements"] } }
    (by decide)

/-- The commit-parsing fold is the filter-then-map the specification
describes: keep the non-blank lines with at least four pipe-separated
fields, and read the first four fields of each. -/
theorem commit_fold_eq (lines : List String) :
    lines.filterMap parse_commit_line =
      (lines.filter (fun l =>
          decide (py_strip l ≠ "") && decide ((py_split '|' l).length ≥ 4))).map
        (fun l => CommitEntry.commit ((py_split '|' l).getD 0 "")
          ((py_split '|' l).getD 1 "") ((py_split '|' l).getD 2 "")
          ((py_split '|' l).getD 3 "")) := by
  induction lines with
  | nil => rfl
  | cons l rest ih =>
    by_cases h1 : py_strip l = ""
    · have hp : parse_commit_line l = none := by simp [parse_commit_line, h1]
      simp [List.filterMap_cons, List.filter_cons, hp, h1, ih]
    · by_cases h2 : (py_split '|' l).length ≥ 4
      · have hp : parse_commit_line l =
            some (.commit ((py_split '|' l).getD 0 "") ((py_split '|' l).getD 1 "")
              ((py_split '|' l).getD 2 "") ((py_split '|' l).getD 3 "")) := by
          simp [parse_commit_line, h1, h2]
        simp [List.filterMap_cons, List.filter_cons, hp, h1, h2, ih]
      · have hp : parse_commit_line l = none := by simp [parse_commit_line, h1, h2]
        simp [List.filterMap_cons, List.filter_cons, hp, h1, h2, ih]

/-- C9: `get_commit_messages` parses each non-blank log line into the
four pipe-separated fields hash, message, author, date, silently
dropping lines with fewer than four fields; and on a failed tool
invocation it returns the single-element error-marker sequence rather
than raising. -/
theorem get_commit_messages_spec (p : ProcResult) :
    (p.exitCode ≠ 0 →
      get_commit_messages p =
        [.errorMarker ("Git command failed: " ++ p.stderr)]) ∧
    (p.exitCode = 0 →
      get_commit_messages p =
        ((py_split '\n' (py_strip p.stdout)).filter (fun l =>
            decide (py_strip l ≠ "") && decide ((py_split '|' l).length ≥ 4))).map
          (fun l => .commit ((py_split '|' l).getD 0 "")
            ((py_split '|' l).getD 1 "") ((py_split '|' l).getD 2 "")
            ((py_split '|' l).getD 3 ""))) := by
  constructor
  · intro h
    simp [get_commit_messages, run_git_command, h]
  · intro h
    simp only [get_commit_messages, run_git_command, h, if_pos]
    exact commit_fold_eq (py_split '\n' (py_strip p.stdout))

/-- Witness for `get_commit_messages_spec`: a successful log with one
well-formed line, one short line and one blank line. -/
theorem get_commit_messages_spec_witness :
    get_commit_messages ⟨0, "abc123|Fix parser|alice|2025-06-01\nbadline\n\ndef456|Add docs|bob|2025-06-02", ""⟩ =
      ((py_split '\n' (py_strip "abc123|Fix parser|alice|2025-06-01\nbadline\n\ndef456|Add docs|bob|2025-06-02")).filter (fun l =>
          decide (py_strip l ≠ "") && decide ((py_split '|' l).length ≥ 4))).map
        (fun l => .commit ((py_split '|' l).getD 0 "")
          ((py_split '|' l).getD 1 "") ((py_split '|' l).getD 2 "")
          ((py_split '|' l).getD 3 "")) :=
  (get_commit_messages_spec ⟨0, "abc123|Fix parser|alice|2025-06-01\nbadline\n\ndef456|Add docs|bob|2025-06-02", ""⟩).2 rfl

/-- C3: whenever one of the git invocations behind `get_file_changes`
exits non-zero, the operation returns (rather than raises) the
error-shaped report: a non-empty error message, zero
`total_files_changed`, empty `file_changes`, empty `diff_stats` and
`diff_content`, and `truncated` false. -/
theorem get_file_changes_error_shape (git : GitOutputs) (target_branch : String)
    (max_tokens : Int)
    (h : git.nameStatus.exitCode ≠ 0 ∨ git.stat.exitCode ≠ 0 ∨
      git.fullDiff.exitCode ≠ 0) :
    ∃ e, (get_file_changes git target_branch max_tokens).error = some e ∧ e ≠ "" ∧
      (get_file_changes git target_branch max_tokens).total_files_changed = 0 ∧
      (get_file_changes git target_branch max_tokens).file_changes = [] ∧
      (get_file_changes git target_branch max_tokens).diff_stats = "" ∧
      (get_file_changes git target_branch max_tokens).diff_content = "" ∧
      (get_file_changes git target_branch max_tokens).truncated = false := by
  by_cases h1 : git.nameStatus.exitCode = 0
  · by_cases h2 : git.stat.exitCode = 0
    · have h3 : git.fullDiff.exitCode ≠ 0 := by tauto
      refine ⟨"Git command failed: " ++ git.fullDiff.stderr, ?_⟩
      simp [get_file_changes, run_git_command, h1, h2, h3, error_report,
        git_failed_ne_empty]
    · refine ⟨"Git command failed: " ++ git.stat.stderr, ?_⟩
      simp [get_file_changes, run_git_command, h1, h2, error_report,
        git_failed_ne_empty]
  · refine ⟨"Git command failed: " ++ git.nameStatus.stderr, ?_⟩
    simp [get_file_changes, run_git_command, h1, error_report, git_failed_ne_empty]

/-- Witness for `get_file_changes_error_shape`: the name-status
invocation fails outside a repository. -/
theorem get_file_changes_error_shape_witness :
    ∃ e, (get_file_changes ⟨⟨1, "", "fatal: not a git repository"⟩,
        ⟨0, "", ""⟩, ⟨0, "", ""⟩⟩ "main" 25000).error = some e ∧ e ≠ "" ∧
      (get_file_changes ⟨⟨1, "", "fatal: not a git repository"⟩,
        ⟨0, "", ""⟩, ⟨0, "", ""⟩⟩ "main" 25000).total_files_changed = 0 ∧
      (get_file_changes ⟨⟨1, "", "fatal: not a git repository"⟩,
        ⟨0, "", ""⟩, ⟨0, "", ""⟩⟩ "main" 25000).file_changes = [] ∧
      (get_file_changes ⟨⟨1, "", "fatal: not a git repository"⟩,
        ⟨0, "", ""⟩, ⟨0, "", ""⟩⟩ "main" 25000).diff_stats = "" ∧
      (get_file_changes ⟨⟨1, "", "fatal: not a git repository"⟩,
        ⟨0, "", ""⟩, ⟨0, "", ""⟩⟩ "main" 25000).diff_content = "" ∧
      (get_file_changes ⟨⟨1, "", "fatal: not a git repository"⟩,
        ⟨0, "", ""⟩, ⟨0, "", ""⟩⟩ "main" 25000).truncated = false :=
  get_file_changes_error_shape ⟨⟨1, "", "fatal: not a git repository"⟩,
    ⟨0, "", ""⟩, ⟨0, "", ""⟩⟩ "main" 25000 (Or.inl (by decide))

/-- C4: a diff whose character length is at most the budget is returned
unchanged by the truncation routine, and the report's `truncated` flag
is false whenever the full diff fits the reserved budget
`max_tokens - 2000`. -/
theorem truncate_noop_within_budget :
    (∀ (diff : String) (max_chars : Int),
        (diff.length : Int) ≤ max_chars → truncate_diff diff max_chars = diff) ∧
    (∀ (git : GitOutputs) (target_branch : String) (max_tokens : Int),
        (∀ d, run_git_command git.fullDiff = .ok d →
          (d.length : Int) ≤ max_tokens - 2000) →
        (get_file_changes git target_branch max_tokens).truncated = false) := by
  have hid : ∀ (diff : String) (mc : Int),
      (diff.length : Int) ≤ mc → truncate_diff diff mc = diff := by
    intro diff mc h
    simp [truncate_diff, h]
  refine ⟨hid, ?_⟩
  intro git tb mt h
  rcases hns : run_git_command git.nameStatus with e | ns
  · simp [get_file_changes, hns, error_report]
  rcases hst : run_git_command git.stat with e | stats
  · simp [get_file_changes, hns, hst, error_report]
  rcases hfd : run_git_command git.fullDiff with e | full_diff
  · simp [get_file_changes, hns, hst, hfd, error_report]
  rcases hp : parse_changed_files (py_split '\n' ns) with e | fcs
  · simp [get_file_changes, hns, hst, hfd, hp, error_report]
  rcases hsum : summarize_changes fcs with _ | s
  · simp [get_file_changes, hns, hst, hfd, hp, hsum, error_report]
  · have hlen := h full_diff hfd
    have htd := hid full_diff (mt - 2000) hlen
    simp [get_file_changes, hns, hst, hfd, hp, hsum, htd]

/-- Witness for `truncate_noop_within_budget`: a short diff under a
generous budget, and a successful analysis whose diff fits the reserve. -/
theorem truncate_noop_within_budget_witness :
    truncate_diff "diff --git a/f b/f" 100 = "diff --git a/f b/f" ∧
    (get_file_changes ⟨⟨0, "A\tf.py", ""⟩, ⟨0, "1 file changed", ""⟩,
      ⟨0, "diff body", ""⟩⟩ "main" 25000).truncated = false := by
  constructor
  · exact truncate_noop_within_budget.1 "diff --git a/f b/f" 100 (by decide)
  · apply truncate_noop_within_budget.2
    intro d hd
    have hok : run_git_command (⟨⟨0, "A\tf.py", ""⟩, ⟨0, "1 file changed", ""⟩,
        ⟨0, "diff body", ""⟩⟩ : GitOutputs).fullDiff = .ok (py_strip "diff body") := rfl
    rw [hok] at hd
    cases hd
    decide

/-- A key of a bumped extension table was already a key or is the bumped
extension. -/
theorem bump_ext_keys (m : List (String × Nat)) (e k : String)
    (hv : ∃ v, (k, v) ∈ bump_ext m e) : (∃ v, (k, v) ∈ m) ∨ k = e := by
  induction m with
  | nil =>
    obtain ⟨v, hv⟩ := hv
    simp only [bump_ext, List.mem_singleton, Prod.mk.injEq] at hv
    exact Or.inr hv.1
  | cons p rest ih =>
    obtain ⟨pk, pv⟩ := p
    obtain ⟨v, hv⟩ := hv
    by_cases hpe : pk = e
    · simp only [bump_ext, hpe, if_pos, List.mem_cons, Prod.mk.injEq] at hv
      rcases hv with ⟨hk, _⟩ | h'
      · exact Or.inr hk
      · exact Or.inl ⟨v, List.mem_cons_of_mem _ h'⟩
    · simp only [bump_ext, hpe, if_neg, ite_false, List.mem_cons, Prod.mk.injEq] at hv
      rcases hv with ⟨hk, hv2⟩ | h'
      · exact Or.inl ⟨pv, by rw [hk]; exact List.mem_cons_self _ _⟩
      · rcases ih ⟨v, h'⟩ with h'' | h''
        · exact Or.inl ⟨h''.choose, List.mem_cons_of_mem _ h''.choose_spec⟩
        · exact Or.inr h''

/-- A member of the directory set after an insertion was already a
member or is the inserted directory. -/
theorem set_add_mem (l : List String) (d x : String) (hx : x ∈ set_add l d) :
    x ∈ l ∨ x = d := by
  unfold set_add at hx
  split_ifs at hx with hd
  · exact Or.inl hx
  · rcases List.mem_append.mp hx with h' | h'
    · exact Or.inl h'
    · exact Or.inr (List.mem_singleton.mp h')

/-- Field-by-field characterization of one summary step: each counter is
bumped exactly on its own change type, the extension table is bumped
exactly for dotted filenames, the directory set exactly for non-root
parents. -/
theorem core_fields (s : ChangeSummary) (c : FileChange) :
    ((summarize_step_core s c).added =
      if c.change_type = "added" then s.added + 1 else s.added) ∧
    ((summarize_step_core s c).modified =
      if c.change_type = "modified" then s.modified + 1 else s.modified) ∧
    ((summarize_step_core s c).deleted =
      if c.change_type = "deleted" then s.deleted + 1 else s.deleted) ∧
    ((summarize_step_core s c).renamed =
      if c.change_type = "renamed" then s.renamed + 1 else s.renamed) ∧
    ((summarize_step_core s c).file_types =
      if c.filename.data.contains '.' then
        bump_ext s.file_types (last_dot_field c.filename)
      else s.file_types) ∧
    ((summarize_step_core s c).directories =
      if py_dirname c.filename ≠ "" then
        set_add s.directories (py_dirname c.filename)
      else s.directories) := by
  unfold summarize_step_core
  by_cases h5 : '.' ∈ c.filename.data <;>
  by_cases h6 : py_dirname c.filename = "" <;>
  by_cases h1 : c.change_type = "added" <;>
  by_cases h2 : c.change_type = "modified" <;>
  by_cases h3 : c.change_type = "deleted" <;>
  by_cases h4 : c.change_type = "renamed" <;>
  simp [h1, h2, h3, h4, h5, h6]

/-- Invariant of the whole summarising loop, relative to an arbitrary
starting summary. -/
theorem summarize_aux_spec (l : List FileChange) : ∀ (s0 : ChangeSummary),
    (∀ c ∈ l, c.change_type ≠ "file_types" ∧ c.change_type ≠ "directories") →
    ∃ s, summarize_aux s0 l = some s ∧
      s.added + s.modified + s.deleted + s.renamed ≤
        s0.added + s0.modified + s0.deleted + s0.renamed + l.length ∧
      (∀ k, (∃ v, (k, v) ∈ s.file_types) →
        (∃ v, (k, v) ∈ s0.file_types) ∨
          ∃ c ∈ l, c.filename.data.contains '.' = true ∧
            k = last_dot_field c.filename) ∧
      (∀ d, d ∈ s.directories →
        d ∈ s0.directories ∨
          (d ≠ "" ∧ ∃ c ∈ l, py_dirname c.filename = d)) := by
  induction l with
  | nil =>
    intro s0 _
    exact ⟨s0, rfl, by omega, fun k hk => Or.inl hk, fun d hd => Or.inl hd⟩
  | cons c rest ih =>
    intro s0 hval
    have hc := hval c (List.mem_cons_self c rest)
    have hstep : summarize_step s0 c = some (summarize_step_core s0 c) := by
      simp [summarize_step, hc.1, hc.2]
    obtain ⟨s, hs, hsum, hft, hdir⟩ :=
      ih (summarize_step_core s0 c) (fun c' hc' => hval c' (List.mem_cons_of_mem _ hc'))
    obtain ⟨ha, hm, hd', hr, hftc, hdc⟩ := core_fields s0 c
    refine ⟨s, ?_, ?_, ?_, ?_⟩
    · simp [summarize_aux, hstep, hs]
    · have hcore : (summarize_step_core s0 c).added +
          (summarize_step_core s0 c).modified + (summarize_step_core s0 c).deleted +
          (summarize_step_core s0 c).renamed ≤
          s0.added + s0.modified + s0.deleted + s0.renamed + 1 := by
        rw [ha, hm, hd', hr]
        split_ifs <;> first | omega | simp_all
      simp only [List.length_cons]
      omega
    · intro k hk
      rcases hft k hk with hk' | hk'
      · by_cases hdot : c.filename.data.contains '.' = true
        · rw [hftc, if_pos hdot] at hk'
          rcases bump_ext_keys _ _ _ hk' with h'' | h''
          · exact Or.inl h''
          · exact Or.inr ⟨c, List.mem_cons_self _ _, hdot, h''⟩
        · rw [hftc, if_neg hdot] at hk'
          exact Or.inl hk'
      · obtain ⟨c', hc', hdot, hkk⟩ := hk'
        exact Or.inr ⟨c', List.mem_cons_of_mem _ hc', hdot, hkk⟩
    · intro d hd
      rcases hdir d hd with hd' | hd'
      · by_cases hne : py_dirname c.filename = ""
        · rw [hdc, if_neg (by simp [hne])] at hd'
          exact Or.inl hd'
        · rw [hdc, if_pos hne] at hd'
          rcases set_add_mem _ _ _ hd' with h'' | h''
          · exact Or.inl h''
          · exact Or.inr ⟨by rw [h'']; exact hne, c, List.mem_cons_self _ _, h''.symm⟩
      · obtain ⟨hne, c', hc', hdd⟩ := hd'
        exact Or.inr ⟨hne, c', List.mem_cons_of_mem _ hc', hdd⟩

/-- C5: for every `FileChange` sequence (change types among the seven
enumerated kinds), the summary computation succeeds, its four counters
sum to at most the sequence length, every extension entry comes from a
filename containing a dot, and every directory entry is non-empty and
comes from some filename's parent directory. -/
theorem summarize_changes_invariants (file_changes : List FileChange)
    (h : ∀ c ∈ file_changes, c.change_type ∈
      ["added", "modified", "deleted", "renamed", "copied",
       "type_changed", "unknown"]) :
    ∃ s, summarize_changes file_changes = some s ∧
      s.added + s.modified + s.deleted + s.renamed ≤ file_changes.length ∧
      (∀ k, (∃ v, (k, v) ∈ s.file_types) →
        ∃ c ∈ file_changes, c.filename.data.contains '.' = true ∧
          k = last_dot_field c.filename) ∧
      (∀ d, d ∈ s.directories →
        d ≠ "" ∧ ∃ c ∈ file_changes, py_dirname c.filename = d) := by
  have hval : ∀ c ∈ file_changes,
      c.change_type ≠ "file_types" ∧ c.change_type ≠ "directories" := by
    intro c hc
    have hm := h c hc
    simp only [List.mem_cons, List.not_mem_nil, or_false] at hm
    rcases hm with h' | h' | h' | h' | h' | h' | h' <;> rw [h'] <;>
      exact ⟨by decide, by decide⟩
  obtain ⟨s, hs, hsum, hft, hdir⟩ := summarize_aux_spec file_changes ⟨0, 0, 0, 0, [], []⟩ hval
  refine ⟨s, hs, by simpa using hsum, ?_, ?_⟩
  · intro k hk
    rcases hft k hk with hk' | hk'
    · simp at hk'
    · exact hk'
  · intro d hd
    rcases hdir d hd with hd' | hd'
    · simp at hd'
    · obtain ⟨hne, hc⟩ := hd'
      exact ⟨hne, hc⟩

/-- Witness for `summarize_changes_invariants` on a three-change
sequence. -/
theorem summarize_changes_invariants_witness :
    ∃ s, summarize_changes
        [⟨"A", "docs/readme.md", "added"⟩, ⟨"M", "src/main.py", "modified"⟩,
         ⟨"D", "LICENSE", "deleted"⟩] = some s ∧
      s.added + s.modified + s.deleted + s.renamed ≤
        ([⟨"A", "docs/readme.md", "added"⟩, ⟨"M", "src/main.py", "modified"⟩,
          ⟨"D", "LICENSE", "deleted"⟩] : List FileChange).length ∧
      (∀ k, (∃ v, (k, v) ∈ s.file_types) →
        ∃ c ∈ ([⟨"A", "docs/readme.md", "added"⟩, ⟨"M", "src/main.py", "modified"⟩,
          ⟨"D", "LICENSE", "deleted"⟩] : List FileChange),
          c.filename.data.contains '.' = true ∧ k = last_dot_field c.filename) ∧
      (∀ d, d ∈ s.directories →
        d ≠ "" ∧ ∃ c ∈ ([⟨"A", "docs/readme.md", "added"⟩,
          ⟨"M", "src/main.py", "modified"⟩, ⟨"D", "LICENSE", "deleted"⟩] : List FileChange),
          py_dirname c.filename = d) :=
  summarize_changes_invariants
    [⟨"A", "docs/readme.md", "added"⟩, ⟨"M", "src/main.py", "modified"⟩,
     ⟨"D", "LICENSE", "deleted"⟩] (by decide)

/-- C6: the suggestion engine evaluates its ranking rules in order with
first match winning — zero files gives primary `[feature]`; else a
documentation-bucket count strictly above the code-bucket count gives
primary `[docs]`, secondary `[feature]`; else a bug-fix keyword in the
lower-cased rendering of the whole report gives primary `[bugfix]`,
secondary `[feature]`; else a hotfix keyword gives primary `[hotfix]`,
secondary `[bugfix]`; else primary `[feature]`, secondary
`[docs, bugfix]` — and in particular two `.md` files plus one `.py`
file yield primary `[docs]` and secondary `[feature]`. -/
theorem get_template_suggestions_rules :
    (∀ a : ChangeReport,
      (a.file_changes.length = 0 →
        (get_template_suggestions a).primary_suggestions = ["feature"]) ∧
      (a.file_changes.length ≠ 0 →
        (count_buckets a.file_changes).1 > (count_buckets a.file_changes).2.2.2 →
        (get_template_suggestions a).primary_suggestions = ["docs"] ∧
        (get_template_suggestions a).secondary_suggestions = ["feature"]) ∧
      (a.file_changes.length ≠ 0 →
        ¬((count_buckets a.file_changes).1 > (count_buckets a.file_changes).2.2.2) →
        fix_keywords.any (fun w => py_in w (py_lower (py_str_report a))) = true →
        (get_template_suggestions a).primary_suggestions = ["bugfix"] ∧
        (get_template_suggestions a).secondary_suggestions = ["feature"]) ∧
      (a.file_changes.length ≠ 0 →
        ¬((count_buckets a.file_changes).1 > (count_buckets a.file_changes).2.2.2) →
        fix_keywords.any (fun w => py_in w (py_lower (py_str_report a))) = false →
        hotfix_keywords.any (fun w => py_in w (py_lower (py_str_report a))) = true →
        (get_template_suggestions a).primary_suggestions = ["hotfix"] ∧
        (get_template_suggestions a).secondary_suggestions = ["bugfix"]) ∧
      (a.file_changes.length ≠ 0 →
        ¬((count_buckets a.file_changes).1 > (count_buckets a.file_changes).2.2.2) →
        fix_keywords.any (fun w => py_in w (py_lower (py_str_report a))) = false →
        hotfix_keywords.any (fun w => py_in w (py_lower (py_str_report a))) = false →
        (get_template_suggestions a).primary_suggestions = ["feature"] ∧
        (get_template_suggestions a).secondary_suggestions = ["docs", "bugfix"])) ∧
    ((get_template_suggestions
        { error := none
          branch_comparison := "main...HEAD"
          total_files_changed := 3
          file_changes := [⟨"A", "guide.md", "added"⟩, ⟨"A", "setup.md", "added"⟩,
            ⟨"M", "main.py", "modified"⟩]
          diff_stats := ""
          diff_content := ""
          truncated := false
          original_diff_size := some 0
          change_summary := some ⟨0, 0, 0, 0, [], []⟩ }).primary_suggestions = ["docs"] ∧
     (get_template_suggestions
        { error := none
          branch_comparison := "main...HEAD"
          total_files_changed := 3
          file_changes := [⟨"A", "guide.md", "added"⟩, ⟨"A", "setup.md", "added"⟩,
            ⟨"M", "main.py", "modified"⟩]
          diff_stats := ""
          diff_content := ""
          truncated := false
          original_diff_size := some 0
          change_summary := some ⟨0, 0, 0, 0, [], []⟩ }).secondary_suggestions = ["feature"]) := by
  constructor
  · intro a
    refine ⟨?_, ?_, ?_, ?_, ?_⟩
    · intro h0
      simp [get_template_suggestions, h0]
    · intro h0 h1
      simp [get_template_suggestions, h0, h1]
    · intro h0 h1 hfix
      simp [get_template_suggestions, h0, h1, hfix]
    · intro h0 h1 hfix hhot
      simp [get_template_suggestions, h0, h1, hfix, hhot]
    · intro h0 h1 hfix hhot
      simp [get_template_suggestions, h0, h1, hfix, hhot]
  · constructor <;> decide

/-- Witness for `get_template_suggestions_rules`: the zero-file rule at
a concrete empty report. -/
theorem get_template_suggestions_rules_witness :
    (get_template_suggestions
      { error := none
        branch_comparison := "main...HEAD"
        total_files_changed := 0
        file_changes := []
        diff_stats := ""
        diff_content := ""
        truncated := false
        original_diff_size := some 0
        change_summary := some ⟨0, 0, 0, 0, [], []⟩ }).primary_suggestions = ["feature"] :=
  ((get_template_suggestions_rules.1
    { error := none
      branch_comparison := "main...HEAD"
      total_files_changed := 0
      file_changes := []
      diff_stats := ""
      diff_content := ""
      truncated := false
      original_diff_size := some 0
      change_summary := some ⟨0, 0, 0, 0, [], []⟩ }).1) (by decide)

/-- The newline-splitting scan never returns an empty list of pieces. -/
theorem py_split_go_ne_nil (sep : Char) (cs : List Char) :
    py_split.go sep cs ≠ [] := by
  induction cs with
  | nil => simp [py_split.go]
  | cons c cs ih =>
    rw [py_split.go]
    rcases hg : py_split.go sep cs with _ | ⟨l, ls⟩
    · simp
    · by_cases hc : c = sep <;> simp [hc]

/-- Splitting never yields an empty piece list. -/
theorem py_split_ne_nil (sep : Char) (s : String) : py_split sep s ≠ [] := by
  unfold py_split
  intro hcontra
  exact py_split_go_ne_nil sep s.data (List.map_eq_nil_iff.mp hcontra)

/-- Each piece of the splitting scan accounts for its characters plus
one separator; together the pieces account for the whole text plus
one. -/
theorem py_split_go_sizes (sep : Char) (cs : List Char) :
    ((py_split.go sep cs).map (fun l => (l.length : Int) + 1)).sum =
      (cs.length : Int) + 1 := by
  induction cs with
  | nil => simp [py_split.go]
  | cons c cs ih =>
    rw [py_split.go]
    rcases hg : py_split.go sep cs with _ | ⟨l, ls⟩
    · exact absurd hg (py_split_go_ne_nil sep cs)
    · rw [hg] at ih
      show (List.map (fun l => (l.length : Int) + 1)
          (if c = sep then [] :: l :: ls else (c :: l) :: ls)).sum =
        ((c :: cs).length : Int) + 1
      by_cases hc : c = sep
      · rw [if_pos hc]
        simp only [List.map_cons, List.sum_cons, List.length_nil,
          List.length_cons] at ih ⊢
        push_cast at ih ⊢
        omega
      · rw [if_neg hc]
        simp only [List.map_cons, List.sum_cons, List.length_cons] at ih ⊢
        push_cast at ih ⊢
        omega

/-- The newline split of a diff accounts for the diff's length plus
one. -/
theorem py_split_nl_sizes (s : String) :
    ((py_split '\n' s).map (fun l => (l.length : Int) + 1)).sum =
      (s.length : Int) + 1 := by
  unfold py_split
  rw [List.map_map]
  have hf : ((fun (l : String) => (l.length : Int) + 1) ∘ String.mk) =
      (fun (l : List Char) => (l.length : Int) + 1) := rfl
  rw [hf, py_split_go_sizes]
  rfl

/-- Length of a newline join that ends with an appended marker line:
each emitted piece contributes its length plus one, the marker its own
length. -/
theorem py_join_nl_append_length (es : List String) (m : String) :
    ((py_join_nl (es ++ [m])).length : Int) =
      (es.map (fun l => (l.length : Int) + 1)).sum + (m.length : Int) := by
  induction es with
  | nil => simp [py_join_nl]
  | cons e es ih =>
    rcases es with _ | ⟨e', es'⟩
    · have h1 : py_join_nl ([e] ++ [m]) = e ++ "\n" ++ m := rfl
      rw [h1]
      simp only [String.length_append, List.map_cons, List.map_nil,
        List.sum_cons, List.sum_nil]
      have h2 : ("\n" : String).length = 1 := rfl
      rw [h2]
      push_cast
      omega
    · simp only [List.cons_append] at ih ⊢
      have h1 : py_join_nl (e :: e' :: (es' ++ [m])) =
          e ++ "\n" ++ py_join_nl (e' :: (es' ++ [m])) := rfl
      rw [h1]
      simp only [String.length_append, List.map_cons, List.sum_cons] at ih ⊢
      have h2 : ("\n" : String).length = 1 := rfl
      rw [h2]
      push_cast at ih ⊢
      omega

/-- A newline join with a final marker piece ends with that marker. -/
theorem py_join_nl_append_marker (es : List String) (m : String) :
    ∃ pre, py_join_nl (es ++ [m]) = pre ++ m := by
  induction es with
  | nil => exact ⟨"", by simp [py_join_nl]⟩
  | cons e es ih =>
    rcases es with _ | ⟨e', es'⟩
    · exact ⟨e ++ "\n", by rw [show py_join_nl ([e] ++ [m]) = e ++ "\n" ++ m from rfl]⟩
    · simp only [List.cons_append] at ih ⊢
      obtain ⟨pre, hpre⟩ := ih
      refine ⟨e ++ "\n" ++ pre, ?_⟩
      rw [show py_join_nl (e :: e' :: (es' ++ [m])) =
          e ++ "\n" ++ py_join_nl (e' :: (es' ++ [m])) from rfl, hpre]
      simp [String.append_assoc]

/-- Invariant of the truncation loop once the remaining budget is
exceeded: some prefix of the remaining lines is emitted, the elision
marker counts the lines not emitted, and the emitted sizes stay within
the budget (or the starting size). -/
theorem truncate_lines_spec (mc : Int) (total : Nat) :
    ∀ (rest acc : List String) (size : Int),
      size + (rest.map (fun l => (l.length : Int) + 1)).sum > mc →
      (size ≤ mc ∨ rest ≠ []) →
      0 ≤ size →
      ∃ es, es <+: rest ∧
        truncate_lines mc total rest acc size =
          acc.reverse ++ es ++
            [elision_marker (total - (acc.length + es.length))] ∧
        size + (es.map (fun l => (l.length : Int) + 1)).sum ≤ max mc size := by
  intro rest
  induction rest with
  | nil =>
    intro acc size h1 h2 _
    rcases h2 with h2 | h2
    · exfalso
      simp at h1
      omega
    · exact absurd rfl h2
  | cons l rest' ih =>
    intro acc size h1 h2 h3
    by_cases hb : size + ((l.length : Int) + 1) > mc
    · refine ⟨[], List.nil_prefix, ?_, ?_⟩
      · simp [truncate_lines, hb]
      · simp only [List.map_nil, List.sum_nil, add_zero]
        exact le_max_right mc size
    · push_neg at hb
      obtain ⟨es, hpre, heq, hsz⟩ := ih (l :: acc) (size + ((l.length : Int) + 1))
        (by simp only [List.map_cons, List.sum_cons] at h1 ⊢; omega)
        (Or.inl hb)
        (by have hl : (0 : Int) ≤ (l.length : Int) + 1 := by positivity
            omega)
      refine ⟨l :: es, List.cons_prefix_cons.mpr ⟨rfl, hpre⟩, ?_, ?_⟩
      · have hstep : truncate_lines mc total (l :: rest') acc size =
            truncate_lines mc total rest' (l :: acc)
              (size + ((l.length : Int) + 1)) := by
          simp [truncate_lines, not_lt.mpr hb]
        rw [hstep, heq]
        have hcnt : total - ((l :: acc).length + es.length) =
            total - (acc.length + (l :: es).length) := by
          simp only [List.length_cons]
          omega
        rw [hcnt, List.reverse_cons]
        simp [List.append_assoc]
      · rw [max_eq_left hb] at hsz
        have hle : mc ≤ max mc size := le_max_left _ _
        simp only [List.map_cons, List.sum_cons] at hsz ⊢
        omega

/-- C1 (amended): for every diff longer than the budget, the truncation
emits a prefix of the diff's lines whose sizes (length plus newline) fit
within the budget (clamped below at zero), appends exactly one elision
marker whose stated count is the total line count minus the emitted line
count, ends with that marker, and the full returned text exceeds the
budget by at most the marker line's own length. -/
theorem truncate_overflow_spec (diff : String) (max_chars : Int)
    (h : (diff.length : Int) > max_chars) :
    ∃ emitted k,
      emitted <+: py_split '\n' diff ∧
      k = (py_split '\n' diff).length - emitted.length ∧
      truncate_diff diff max_chars =
        py_join_nl (emitted ++ [elision_marker k]) ∧
      (∃ pre, truncate_diff diff max_chars = pre ++ elision_marker k) ∧
      (emitted.map (fun l => (l.length : Int) + 1)).sum ≤ max max_chars 0 ∧
      ((truncate_diff diff max_chars).length : Int) ≤
        max max_chars 0 + ((elision_marker k).length : Int) := by
  have hne : py_split '\n' diff ≠ [] := py_split_ne_nil '\n' diff
  obtain ⟨es, hpre, heq, hsz⟩ := truncate_lines_spec max_chars
    (py_split '\n' diff).length (py_split '\n' diff) [] 0
    (by rw [zero_add, py_split_nl_sizes]; omega)
    (Or.inr hne) le_rfl
  have hsz' : (es.map (fun l => (l.length : Int) + 1)).sum ≤ max max_chars 0 := by
    simpa using hsz
  have htd : truncate_diff diff max_chars =
      py_join_nl (es ++
        [elision_marker ((py_split '\n' diff).length - es.length)]) := by
    rw [truncate_diff, if_neg (not_le.mpr h)]
    show py_join_nl (truncate_lines max_chars (py_split '\n' diff).length
      (py_split '\n' diff) [] 0) = _
    rw [heq]
    simp
  refine ⟨es, (py_split '\n' diff).length - es.length, hpre, rfl, htd, ?_, hsz', ?_⟩
  · rw [htd]
    exact py_join_nl_append_marker es _
  · rw [htd, py_join_nl_append_length]
    omega

/-- Witness for `truncate_overflow_spec`: the two-line diff `ab\ncd`
against budget 3 (one line emitted, one elided). -/
theorem truncate_overflow_spec_witness :
    ∃ emitted k,
      emitted <+: py_split '\n' "ab\ncd" ∧
      k = (py_split '\n' "ab\ncd").length - emitted.length ∧
      truncate_diff "ab\ncd" 3 = py_join_nl (emitted ++ [elision_marker k]) ∧
      (∃ pre, truncate_diff "ab\ncd" 3 = pre ++ elision_marker k) ∧
      (emitted.map (fun l => (l.length : Int) + 1)).sum ≤ max (3 : Int) 0 ∧
      ((truncate_diff "ab\ncd" 3).length : Int) ≤
        max (3 : Int) 0 + ((elision_marker k).length : Int) :=
  truncate_overflow_spec "ab\ncd" 3 (by decide)

/-- C1 counterexample: the claim's bound "returned length is at most the
budget" fails at the concrete diff `ab\ncd` with budget 1 — the diff
exceeds the budget, yet the returned text (the marker alone) is longer
than the budget. -/
theorem truncate_budget_counterexample :
    (("ab\ncd" : String).length : Int) > 1 ∧
    ¬(((truncate_diff "ab\ncd" 1).length : Int) ≤ 1) := by decide
